import Mathlib

/-!
Verification development for the EventViewer poster-analysis pipeline
(`investigations/poster_analyzer`).  The Python data model
(`data_models.py`), the enrichment merge engine (`web_scraper.py`), the
quality pass (`analyzer.py`), the model-reply parser (`claude_client.py`)
and the URL validator (`qr_detector.py`) are shallowly embedded below and
the documented properties are proved or refuted against the embedding.

Conventions of the embedding:
* Python `float` values that feed the confidence / price arithmetic are
  modelled as rationals (`ℚ`); the arithmetic involved (`min`, `+`, `/ 2`,
  `* 0.05`) is exact in the source's value range.
* Python `Optional[X]` becomes `Option X`; Python truthiness of the
  optional string / float fields (`if not event_data.preise.preis: ...`)
  is modelled by the `truthy*` helpers: `None`, `""` and `0.0` are falsy.
* External collaborators (the `re` stdlib searches, `json.loads`,
  `validators.url`, pydantic's `from_dict` validation) are parameters of
  the embedded functions; theorems quantify over their behaviour.
* `datetime` values only matter through presence, so they are `Option Int`.
-/

set_option autoImplicit false

namespace EventViewer

/-! ### Python truthiness helpers -/

/-- Truthiness of a Python `Optional[str]`: `None` and `""` are falsy. -/
def truthyStr (s : Option String) : Bool :=
  match s with
  | none => false
  | some s => !(s == "")

/-- Truthiness of a Python `Optional[float]`: `None` and `0.0` are falsy. -/
def truthyQ (q : Option ℚ) : Bool :=
  match q with
  | none => false
  | some q => !(q == 0)

/-- Python `str.lower()` (per-character case folding; ASCII suffices for
the keyword and domain fragments used by the source). -/
def pyLower (s : String) : String := String.mk (s.toList.map Char.toLower)

/-- Contiguous-substring search on character lists. -/
def listContainsSub (needle : List Char) : List Char → Bool
  | [] => needle.isEmpty
  | c :: rest => needle.isPrefixOf (c :: rest) || listContainsSub needle rest

/-- Python `needle in hay` substring test. -/
def containsSub (needle hay : String) : Bool :=
  listContainsSub needle.toList hay.toList

/-! ### Data model (`data_models.py`) -/

/-- `EventKategorie` enumeration (`data_models.py` lines 11-22). -/
inductive EventKategorie where
  | musik | comedy | essen | party | theater | sport
  | workshop | festival | kultur | andere
deriving DecidableEq, Repr

/-- `Ort` (`data_models.py` lines 25-37); all fields default to `None`. -/
structure Ort where
  veranstaltungsort : Option String := none
  adresse : Option String := none
  stadt : Option String := none
  postleitzahl : Option String := none
  bundesland : Option String := none
deriving DecidableEq, Repr

/-- `Termine` (`data_models.py` lines 40-50); timestamps reduced to
presence-relevant `Option Int`. -/
structure Termine where
  beginn : Option Int := none
  ende : Option Int := none
  einlass : Option Int := none
deriving DecidableEq, Repr

/-- `Preise` (`data_models.py` lines 53-65). -/
structure Preise where
  kostenlos : Bool := false
  preis : Option ℚ := none
  waehrung : String := "EUR"
  vorverkauf : Option ℚ := none
  abendkasse : Option ℚ := none
deriving DecidableEq, Repr

/-- `Kuenstler` (`data_models.py` lines 68-71). -/
structure Kuenstler where
  name : String
  info : Option String := none
deriving DecidableEq, Repr

/-- `TicketInfo` (`data_models.py` lines 74-78); `online_links` holds the
URL strings appended by the merge engine. -/
structure TicketInfo where
  verkaufsstellen : List String := []
  online_links : List String := []
  telefon : Option String := none
deriving DecidableEq, Repr

/-- `Kontakt` (`data_models.py` lines 81-86). -/
structure Kontakt where
  veranstalter : Option String := none
  telefon : Option String := none
  email : Option String := none
  website : Option String := none
deriving DecidableEq, Repr

/-- `Metadaten` (`data_models.py` lines 89-95). -/
structure Metadaten where
  kuenstler : List Kuenstler := []
  ticketinfo : TicketInfo := {}
  kontakt : Kontakt := {}
  quellen : List String := []
  vertrauenswuerdigkeit : ℚ := 0
deriving DecidableEq, Repr

/-- `EventData` (`data_models.py` lines 98-109). -/
structure EventData where
  veranstaltungsname : String
  ort : Ort := {}
  termine : Termine := {}
  preise : Preise := {}
  beschreibung : Option String := none
  kategorie : EventKategorie := .andere
  metadaten : Metadaten := {}
  erkannte_links : List String := []
  erkannte_qr_codes : List String := []
  sprache : String := "de"
deriving DecidableEq, Repr

/-- Python `str.isdigit` (ASCII digits; the source only ever meets ASCII
postal codes). Nonempty and all characters are digits. -/
def pyIsdigit (s : String) : Bool :=
  !(s == "") && s.toList.all Char.isDigit

/-- `Ort.validate_plz` (`data_models.py` lines 33-37):
`if v and not (v.isdigit() and len(v) == 5): raise ValueError(...)`.
`Except` models the raised `ValueError`. -/
def validate_plz (v : Option String) : Except String (Option String) :=
  match v with
  | none => .ok none
  | some s =>
    if !(s == "") && !(pyIsdigit s && s.length == 5) then
      .error "PLZ must be 5 digits"
    else
      .ok (some s)

/-! ### Scraped page signal and regex collaborators (`web_scraper.py`) -/

/-- The dictionary built by `WebScraper._scrape_single_url` (lines 142-148),
restricted to the keys the merge engine reads (`url`, `text_content`;
`title` kept for record). -/
structure Scraped where
  url : String
  title : Option String := none
  text_content : String
deriving DecidableEq, Repr

/-- The `re` stdlib searches used by the merge rules, as collaborator
functions.  `priceSearch` bundles the price regex of
`_merge_event_info` line 269 together with the `float(...replace(',','.'))`
conversion (lines 271-277, a no-match or `ValueError` is `none`);
`addressSearch` is the address regex of line 282 returning the four groups
(street words, house number, 5-digit PLZ, city); `emailSearch` and
`phoneSearch` are the regexes of `_merge_contact_info` lines 295 and 301. -/
structure ReSearches where
  priceSearch : String → Option ℚ
  addressSearch : String → Option (String × String × String × String)
  emailSearch : String → Option String
  phoneSearch : String → Option String

/-! ### Merge engine (`web_scraper.py` lines 226-328) -/

/-- `WebScraper._merge_event_info` (lines 263-287).  Price rule: guarded by
Python truthiness `not event_data.preise.preis and not
event_data.preise.kostenlos`; on a match sets `preis` and clears
`kostenlos`.  Address rule: guarded by `not event_data.ort.adresse`; on a
match sets `adresse`, `postleitzahl`, `stadt` together.  Both searches run
on the lower-cased page text (line 265). -/
def mergeEventInfo (R : ReSearches) (e : EventData) (scraped : Scraped) : EventData :=
  let text := pyLower scraped.text_content
  let e1 :=
    if !truthyQ e.preise.preis && !e.preise.kostenlos then
      match R.priceSearch text with
      | some price =>
        { e with preise := { e.preise with preis := some price, kostenlos := false } }
      | none => e
    else e
  if !truthyStr e1.ort.adresse then
    match R.addressSearch text with
    | some (street, number, plz, city) =>
      { e1 with ort := { e1.ort with
          adresse := some (street ++ " " ++ number),
          postleitzahl := some plz,
          stadt := some city } }
    | none => e1
  else e1

/-- `WebScraper._merge_contact_info` (lines 289-307).  Email and phone are
searched in the raw page text; the website field, when falsy, is set to the
page's own URL unconditionally. -/
def mergeContactInfo (R : ReSearches) (e : EventData) (scraped : Scraped) : EventData :=
  let text := scraped.text_content
  let e1 :=
    if !truthyStr e.metadaten.kontakt.email then
      match R.emailSearch text with
      | some m =>
        { e with metadaten := { e.metadaten with
            kontakt := { e.metadaten.kontakt with email := some m } } }
      | none => e
    else e
  let e2 :=
    if !truthyStr e1.metadaten.kontakt.telefon then
      match R.phoneSearch text with
      | some m =>
        { e1 with metadaten := { e1.metadaten with
            kontakt := { e1.metadaten.kontakt with telefon := some m } } }
      | none => e1
    else e1
  if !truthyStr e2.metadaten.kontakt.website then
    { e2 with metadaten := { e2.metadaten with
        kontakt := { e2.metadaten.kontakt with website := some scraped.url } } }
  else e2

/-- Ticket keywords `self.event_keywords['tickets']` (line 44). -/
def ticketKeywords : List String :=
  ["tickets", "karten", "vorverkauf", "reservierung", "buchung"]

/-- `WebScraper._merge_ticket_info` (lines 309-322): on the first keyword
found in the lower-cased text, append the page URL to `online_links` when
not already present (the Python `for ... break` loop is an existence
check; the guarded `append` on a plain list cannot raise). -/
def mergeTicketInfo (e : EventData) (scraped : Scraped) : EventData :=
  let text := pyLower scraped.text_content
  if ticketKeywords.any (fun k => containsSub k text) then
    if scraped.url ∈ e.metadaten.ticketinfo.online_links then e
    else
      { e with metadaten := { e.metadaten with
          ticketinfo := { e.metadaten.ticketinfo with
            online_links := e.metadaten.ticketinfo.online_links ++ [scraped.url] } } }
  else e

/-- `WebScraper._merge_artist_info` (lines 324-328) is `pass`. -/
def mergeArtistInfo (e : EventData) (_scraped : Scraped) : EventData := e

/-- One iteration of the loop in `WebScraper._merge_scraped_data`
(lines 240-253): the four rule groups in order, then the source append. -/
def mergeSignal (R : ReSearches) (e : EventData) (d : Scraped) : EventData :=
  let e1 := mergeEventInfo R e d
  let e2 := mergeContactInfo R e1 d
  let e3 := mergeTicketInfo e2 d
  let e4 := mergeArtistInfo e3 d
  if d.url ∈ e4.metadaten.quellen then e4
  else
    { e4 with metadaten := { e4.metadaten with
        quellen := e4.metadaten.quellen ++ [d.url] } }

/-- `WebScraper._merge_scraped_data` (lines 226-261): fold the signals in
list order over a deep copy of the record, then, when the signal list is
nonempty, recompute the confidence once:
`min(1.0, original + min(0.2, len * 0.05))`. -/
def mergeScrapedData (R : ReSearches) (e : EventData) (scraped : List Scraped) : EventData :=
  let enhanced := scraped.foldl (mergeSignal R) e
  if scraped.isEmpty then enhanced
  else
    let c := enhanced.metadaten.vertrauenswuerdigkeit
    let bonus := min (1/5 : ℚ) ((scraped.length : ℚ) * (1/20))
    { enhanced with metadaten := { enhanced.metadaten with
        vertrauenswuerdigkeit := min 1 (c + bonus) } }

/-! ### Quality pass (`analyzer.py` lines 162-209) -/

/-- The `quality_factors` list of `PosterAnalyzer._assess_data_quality`
(lines 169-199); each conditional `append` is rendered as a conditional
singleton so the built list is identical. -/
def qualityFactors (e : EventData) : List String :=
  (if !(e.veranstaltungsname == "") then ["event_name"] else []) ++
  (if truthyStr e.ort.veranstaltungsort || truthyStr e.ort.adresse then ["location"] else []) ++
  (if e.termine.beginn.isSome then ["datetime"] else []) ++
  (if e.preise.kostenlos || truthyQ e.preise.preis then ["pricing"] else []) ++
  (if truthyStr e.metadaten.kontakt.telefon || truthyStr e.metadaten.kontakt.email ||
      truthyStr e.metadaten.kontakt.website then ["contact"] else []) ++
  (if !e.erkannte_qr_codes.isEmpty || !e.erkannte_links.isEmpty then ["sources"] else []) ++
  (if !(e.kategorie == .andere) then ["category"] else [])

/-- `quality_score = len(quality_factors) / 7` (line 201). -/
def qualityScore (e : EventData) : ℚ :=
  ((qualityFactors e).length : ℚ) / 7

/-- `PosterAnalyzer._assess_data_quality` confidence update (lines
206-209): when the quality score strictly exceeds the current confidence,
set confidence to `min(1.0, (confidence + quality_score) / 2)`; the Python
method mutates the record in place, rendered here as returning the updated
record. -/
def assessDataQuality (e : EventData) : EventData :=
  let qs := qualityScore e
  if e.metadaten.vertrauenswuerdigkeit < qs then
    { e with metadaten := { e.metadaten with
        vertrauenswuerdigkeit :=
          min 1 ((e.metadaten.vertrauenswuerdigkeit + qs) / 2) } }
  else e

/-! ### Model-reply parser (`claude_client.py` lines 197-247) -/

/-- JSON values as decoded by `json.loads`. -/
inductive Json where
  | null
  | bool (b : Bool)
  | num (q : ℚ)
  | str (s : String)
  | arr (xs : List Json)
  | obj (fields : List (String × Json))

/-- Python truthiness of a decoded JSON value (used by
`not event_dict['veranstaltungsname']`, line 231). -/
def Json.truthy : Json → Bool
  | .null => false
  | .bool b => b
  | .num q => !(q == 0)
  | .str s => !(s == "")
  | .arr xs => !xs.isEmpty
  | .obj fs => !fs.isEmpty

/-- Python truthiness of `event_dict.get(k)`: a missing key and a falsy
value both fail the check
`'veranstaltungsname' not in event_dict or not event_dict['veranstaltungsname']`. -/
def pyTruthyJson : Option Json → Bool
  | none => false
  | some v => v.truthy

/-- First binding of a key in a decoded object (`json.loads` yields unique
keys, so first-binding lookup matches Python dict lookup). -/
def lookupKey (fields : List (String × Json)) (k : String) : Option Json :=
  match fields with
  | [] => none
  | (k2, v) :: rest => if k2 == k then some v else lookupKey rest k

/-- Python `event_dict[k] = v` on a dict rendered as a key-unique
association list: replace the binding when present, append otherwise. -/
def setKey (fields : List (String × Json)) (k : String) (v : Json) : List (String × Json) :=
  if fields.any (fun p => p.1 == k) then
    fields.map (fun p => if p.1 == k then (k, v) else p)
  else fields ++ [(k, v)]

/-- Python `str.find(c)`: index of the first occurrence. -/
def charFindIdx (cs : List Char) (c : Char) : Option Nat :=
  cs.findIdx? (fun x => x == c)

/-- Python `str.rfind(c)`: index of the last occurrence. -/
def charRfindIdx (cs : List Char) (c : Char) : Option Nat :=
  match (cs.reverse.findIdx? (fun x => x == c)) with
  | none => none
  | some i => some (cs.length - 1 - i)

/-- The substring `response_text[json_start:json_end]` of
`_parse_response` line 219, with `json_end = rfind + 1`. -/
def jsonSlice (response : String) (jStart jEnd : Nat) : String :=
  String.mk ((response.toList.take (jEnd + 1)).drop jStart)

/-- Lines 225-228 of `claude_client.py`: the detected QR codes and URLs
are written into the decoded dict when their lists are truthy
(`if qr_codes: ...`, `if urls: ...`). -/
def attachDetected (fields : List (String × Json)) (qrCodes urls : List String) :
    List (String × Json) :=
  let f1 := if qrCodes.isEmpty then fields
            else setKey fields "erkannte_qr_codes" (.arr (qrCodes.map .str))
  if urls.isEmpty then f1
  else setKey f1 "erkannte_links" (.arr (urls.map .str))

/-- `ClaudeImageAnalyzer._parse_response` (`claude_client.py` lines
197-247), parametrised over the collaborators `json.loads` (`loads`,
`none` models `JSONDecodeError`) and `EventData.from_dict` pydantic
validation (`fromDict`, `none` models a raised `ValidationError`).
Control flow of the source: missing `{` (`find == -1`) or missing `}`
(`rfind + 1 == 0`) returns `None`; decode failure returns `None`; the
detected QR codes / URLs are attached via `attachDetected`; a missing or
falsy `veranstaltungsname` returns `None` (lines 231-233).  A decode
result that is not a dict always ends in `None` in the source (item
assignment / subscripting raises `TypeError`, membership on a decoded
string or list fails the required-field check, and every raise is caught
by the blanket `except`), rendered by the catch-all arm. -/
def parseResponse (loads : String → Option Json)
    (fromDict : List (String × Json) → Option EventData)
    (response : String) (qrCodes urls : List String) : Option EventData :=
  let cs := response.toList
  match charFindIdx cs '{', charRfindIdx cs '}' with
  | none, _ => none
  | _, none => none
  | some jStart, some jEnd =>
    match loads (jsonSlice response jStart jEnd) with
    | none => none
    | some j =>
      match j with
      | .obj fields =>
        let f2 := attachDetected fields qrCodes urls
        if pyTruthyJson (lookupKey f2 "veranstaltungsname") then fromDict f2
        else none
      | _ => none

/-! ### URL validation (`qr_detector.py` lines 176-202) -/

/-- `german_domains = ['.de', '.at', '.ch']` (line 187). -/
def germanDomains : List String := [".de", ".at", ".ch"]

/-- `any(domain in url.lower() for domain in german_domains)`
(lines 192 and 200). -/
def hasGermanDomain (url : String) : Bool :=
  germanDomains.any (fun d => containsSub d (pyLower url))

/-- `url.startswith(('http://', 'https://'))` (line 194). -/
def startsWithHttpScheme (url : String) : Bool :=
  "http://".toList.isPrefixOf url.toList || "https://".toList.isPrefixOf url.toList

/-- The loop body of `QRCodeDetector.validate_german_urls` (lines
189-197), parametrised over the collaborator `validators.url` (`isUrl`):
the entry the candidate contributes to `valid_urls`, if any. -/
def acceptUrl (isUrl : String → Bool) (url : String) : Option String :=
  if isUrl url then some url
  else if hasGermanDomain url then
    if !startsWithHttpScheme url then
      let fixed := "https://" ++ url
      if isUrl fixed then some fixed else none
    else none
  else none

/-- `QRCodeDetector.validate_german_urls` (lines 176-202): collect the
accepted entries in input order, then
`valid_urls.sort(key=lambda x: not any(domain in x.lower() ...))`.
Python's `list.sort` is stable, and a stable sort by a boolean key is
exactly the stable partition: all entries with key `False` (German
domains) in their original relative order, then the rest in theirs. -/
def validate_german_urls (isUrl : String → Bool) (urls : List String) : List String :=
  let valid := urls.filterMap (acceptUrl isUrl)
  valid.filter hasGermanDomain ++ valid.filter (fun u => !hasGermanDomain u)

/-! ### Reference heap for the in-place / copy behaviour

Python records are heap objects reached through references.  For the
claims about object identity (the merge engine deep-copies, the
enrichment wrapper returns the untouched original on failure) the heap is
modelled as a list of `EventData` cells addressed by index; allocation
appends a cell. -/

abbrev RecHeap := List EventData

def RecHeap.read (h : RecHeap) (r : Nat) : Option EventData := List.get? h r

def RecHeap.alloc (h : RecHeap) (v : EventData) : RecHeap := h ++ [v]

/-- `WebScraper._merge_scraped_data` at the heap level: line 238
(`enhanced = event_data.copy(deep=True)`) allocates a fresh object graph,
every subsequent mutation of the method (lines 240-259) targets
`enhanced`, and the method returns `enhanced` — so the net heap effect is
one fresh cell holding the merged value, the original cell untouched. -/
def mergeScrapedDataHeap (R : ReSearches) (h : RecHeap) (r : Nat)
    (scraped : List Scraped) : RecHeap × Nat :=
  match h.read r with
  | some e => (h.alloc (mergeScrapedData R e scraped), h.length)
  | none => (h, r)

/-- How the enrichment phase of `PosterAnalyzer._enhance_with_web_scraping`
(`analyzer.py` lines 141-160) can end: success, an exception before the
merge reaches the record (session setup, `_scrape_urls`), or an exception
during the merge after `k` signals were folded into the deep copy. -/
inductive PhaseOutcome where
  | ok
  | scrapeFail
  | mergeFail (k : Nat)
deriving DecidableEq, Repr

/-- The partially merged copy left behind when the merge loop stops after
`k` signals (the confidence recomputation of lines 256-259 not reached). -/
def mergeScrapedDataUpTo (R : ReSearches) (e : EventData)
    (scraped : List Scraped) (k : Nat) : EventData :=
  (scraped.take k).foldl (mergeSignal R) e

/-- `PosterAnalyzer._enhance_with_web_scraping` (lines 141-160) at the
heap level.  On success the reference to the merged copy is returned; on
any exception inside the `try` the `except` arm (lines 158-160) returns
`event_data` — the original reference `r`.  A failure during the merge may
have allocated and partially filled the deep copy, but that copy is
unreachable from the returned reference. -/
def enhanceWithWebScrapingHeap (R : ReSearches) (scraped : List Scraped)
    (outcome : PhaseOutcome) (h : RecHeap) (r : Nat) : RecHeap × Nat :=
  match h.read r with
  | none => (h, r)
  | some e =>
    match outcome with
    | .ok => (h.alloc (mergeScrapedData R e scraped), h.length)
    | .scrapeFail => (h, r)
    | .mergeFail k => (h.alloc (mergeScrapedDataUpTo R e scraped k), r)

/-! ### Pipeline steps acting on the confidence -/

/-- The two record-rewriting passes of the pipeline that touch the
confidence score: an enrichment merge call with some signal list, and a
quality pass. -/
inductive PipeOp where
  | merge (R : ReSearches) (scraped : List Scraped)
  | quality

def applyOp (e : EventData) : PipeOp → EventData
  | .merge R scraped => mergeScrapedData R e scraped
  | .quality => assessDataQuality e

def applyOps (e : EventData) (ops : List PipeOp) : EventData :=
  ops.foldl applyOp e

/-- The documented record invariant: confidence in `[0, 1]`
(`data_models.py` line 95, `ge=0.0, le=1.0`). -/
def ConfIn01 (e : EventData) : Prop :=
  0 ≤ e.metadaten.vertrauenswuerdigkeit ∧ e.metadaten.vertrauenswuerdigkeit ≤ 1

/-! ### Preservation lemmas for the merge rules -/

theorem mergeEventInfo_metadaten (R : ReSearches) (e : EventData) (d : Scraped) :
    (mergeEventInfo R e d).metadaten = e.metadaten := by
  unfold mergeEventInfo
  dsimp only
  rcases hp : R.priceSearch (pyLower d.text_content) with _ | price <;>
    rcases ha : R.addressSearch (pyLower d.text_content) with _ | ⟨s1, s2, s3, s4⟩ <;>
      simp only [hp, ha] <;> split <;> (try split) <;> rfl

theorem mergeEventInfo_preise_of_truthy (R : ReSearches) (e : EventData) (d : Scraped)
    (h : truthyQ e.preise.preis = true) :
    (mergeEventInfo R e d).preise = e.preise := by
  unfold mergeEventInfo
  dsimp only
  rcases ha : R.addressSearch (pyLower d.text_content) with _ | ⟨s1, s2, s3, s4⟩ <;>
    simp only [h, ha, Bool.not_true, Bool.false_and, Bool.false_eq_true, if_false] <;>
      split <;> rfl

theorem mergeEventInfo_ort_of_truthy (R : ReSearches) (e : EventData) (d : Scraped)
    (h : truthyStr e.ort.adresse = true) :
    (mergeEventInfo R e d).ort = e.ort := by
  unfold mergeEventInfo
  dsimp only
  rcases hp : R.priceSearch (pyLower d.text_content) with _ | price <;>
    simp only [hp] <;> split <;> (try split) <;> first | rfl | simp_all

theorem mergeContactInfo_preise (R : ReSearches) (e : EventData) (d : Scraped) :
    (mergeContactInfo R e d).preise = e.preise := by
  unfold mergeContactInfo
  dsimp only
  rcases he : R.emailSearch d.text_content with _ | m1 <;>
    rcases hp : R.phoneSearch d.text_content with _ | m2 <;>
      simp only [he, hp] <;> split <;> (try split) <;> (try split) <;> rfl

theorem mergeContactInfo_ort (R : ReSearches) (e : EventData) (d : Scraped) :
    (mergeContactInfo R e d).ort = e.ort := by
  unfold mergeContactInfo
  dsimp only
  rcases he : R.emailSearch d.text_content with _ | m1 <;>
    rcases hp : R.phoneSearch d.text_content with _ | m2 <;>
      simp only [he, hp] <;> split <;> (try split) <;> (try split) <;> rfl

theorem mergeContactInfo_conf (R : ReSearches) (e : EventData) (d : Scraped) :
    (mergeContactInfo R e d).metadaten.vertrauenswuerdigkeit
      = e.metadaten.vertrauenswuerdigkeit := by
  unfold mergeContactInfo
  dsimp only
  rcases he : R.emailSearch d.text_content with _ | m1 <;>
    rcases hp : R.phoneSearch d.text_content with _ | m2 <;>
      simp only [he, hp] <;> split <;> (try split) <;> (try split) <;> rfl

theorem mergeContactInfo_email_of_truthy (R : ReSearches) (e : EventData) (d : Scraped)
    (h : truthyStr e.metadaten.kontakt.email = true) :
    (mergeContactInfo R e d).metadaten.kontakt.email = e.metadaten.kontakt.email := by
  unfold mergeContactInfo
  dsimp only
  rcases hp : R.phoneSearch d.text_content with _ | m2 <;>
    simp only [h, hp, Bool.not_true, Bool.false_eq_true, if_false] <;>
      split <;> (try split) <;> rfl

theorem mergeContactInfo_telefon_of_truthy (R : ReSearches) (e : EventData) (d : Scraped)
    (h : truthyStr e.metadaten.kontakt.telefon = true) :
    (mergeContactInfo R e d).metadaten.kontakt.telefon = e.metadaten.kontakt.telefon := by
  unfold mergeContactInfo
  dsimp only
  rcases he : R.emailSearch d.text_content with _ | m1 <;>
    simp only [he, h] <;> split <;> (try split) <;> (try split) <;>
      first | rfl | simp_all

theorem mergeContactInfo_website_of_truthy (R : ReSearches) (e : EventData) (d : Scraped)
    (h : truthyStr e.metadaten.kontakt.website = true) :
    (mergeContactInfo R e d).metadaten.kontakt.website = e.metadaten.kontakt.website := by
  unfold mergeContactInfo
  dsimp only
  rcases he : R.emailSearch d.text_content with _ | m1 <;>
    rcases hp : R.phoneSearch d.text_content with _ | m2 <;>
      simp only [he, hp] <;> split <;> (try split) <;> (try split) <;>
        first | rfl | simp_all

theorem mergeTicketInfo_preise (e : EventData) (d : Scraped) :
    (mergeTicketInfo e d).preise = e.preise := by
  unfold mergeTicketInfo
  dsimp only
  split <;> (try split) <;> rfl

theorem mergeTicketInfo_ort (e : EventData) (d : Scraped) :
    (mergeTicketInfo e d).ort = e.ort := by
  unfold mergeTicketInfo
  dsimp only
  split <;> (try split) <;> rfl

theorem mergeTicketInfo_kontakt (e : EventData) (d : Scraped) :
    (mergeTicketInfo e d).metadaten.kontakt = e.metadaten.kontakt := by
  unfold mergeTicketInfo
  dsimp only
  split <;> (try split) <;> rfl

theorem mergeTicketInfo_conf (e : EventData) (d : Scraped) :
    (mergeTicketInfo e d).metadaten.vertrauenswuerdigkeit
      = e.metadaten.vertrauenswuerdigkeit := by
  unfold mergeTicketInfo
  dsimp only
  split <;> (try split) <;> rfl
theorem mergeSignal_conf (R : ReSearches) (e : EventData) (d : Scraped) :
    (mergeSignal R e d).metadaten.vertrauenswuerdigkeit
      = e.metadaten.vertrauenswuerdigkeit := by
  unfold mergeSignal mergeArtistInfo
  dsimp only
  split <;>
    · rw [mergeTicketInfo_conf, mergeContactInfo_conf, mergeEventInfo_metadaten]

theorem mergeSignal_preis_of_truthy (R : ReSearches) (e : EventData) (d : Scraped)
    (h : truthyQ e.preise.preis = true) :
    (mergeSignal R e d).preise.preis = e.preise.preis := by
  unfold mergeSignal mergeArtistInfo
  dsimp only
  split <;>
    · rw [mergeTicketInfo_preise, mergeContactInfo_preise,
        mergeEventInfo_preise_of_truthy R e d h]

theorem mergeSignal_ort_of_truthy (R : ReSearches) (e : EventData) (d : Scraped)
    (h : truthyStr e.ort.adresse = true) :
    (mergeSignal R e d).ort = e.ort := by
  unfold mergeSignal mergeArtistInfo
  dsimp only
  split <;>
    · rw [mergeTicketInfo_ort, mergeContactInfo_ort,
        mergeEventInfo_ort_of_truthy R e d h]

theorem mergeSignal_email_of_truthy (R : ReSearches) (e : EventData) (d : Scraped)
    (h : truthyStr e.metadaten.kontakt.email = true) :
    (mergeSignal R e d).metadaten.kontakt.email = e.metadaten.kontakt.email := by
  have h1 : truthyStr (mergeEventInfo R e d).metadaten.kontakt.email = true := by
    rw [mergeEventInfo_metadaten]; exact h
  unfold mergeSignal mergeArtistInfo
  dsimp only
  split <;>
    · rw [mergeTicketInfo_kontakt, mergeContactInfo_email_of_truthy _ _ _ h1,
        mergeEventInfo_metadaten]

theorem mergeSignal_telefon_of_truthy (R : ReSearches) (e : EventData) (d : Scraped)
    (h : truthyStr e.metadaten.kontakt.telefon = true) :
    (mergeSignal R e d).metadaten.kontakt.telefon = e.metadaten.kontakt.telefon := by
  have h1 : truthyStr (mergeEventInfo R e d).metadaten.kontakt.telefon = true := by
    rw [mergeEventInfo_metadaten]; exact h
  unfold mergeSignal mergeArtistInfo
  dsimp only
  split <;>
    · rw [mergeTicketInfo_kontakt, mergeContactInfo_telefon_of_truthy _ _ _ h1,
        mergeEventInfo_metadaten]

theorem mergeSignal_website_of_truthy (R : ReSearches) (e : EventData) (d : Scraped)
    (h : truthyStr e.metadaten.kontakt.website = true) :
    (mergeSignal R e d).metadaten.kontakt.website = e.metadaten.kontakt.website := by
  have h1 : truthyStr (mergeEventInfo R e d).metadaten.kontakt.website = true := by
    rw [mergeEventInfo_metadaten]; exact h
  unfold mergeSignal mergeArtistInfo
  dsimp only
  split <;>
    · rw [mergeTicketInfo_kontakt, mergeContactInfo_website_of_truthy _ _ _ h1,
        mergeEventInfo_metadaten]
theorem foldl_mergeSignal_conf (R : ReSearches) (l : List Scraped) : ∀ e : EventData,
    (l.foldl (mergeSignal R) e).metadaten.vertrauenswuerdigkeit
      = e.metadaten.vertrauenswuerdigkeit := by
  induction l with
  | nil => intro e; rfl
  | cons d rest ih =>
    intro e
    rw [List.foldl_cons, ih, mergeSignal_conf]

theorem foldl_mergeSignal_preis (R : ReSearches) (l : List Scraped) : ∀ e : EventData,
    truthyQ e.preise.preis = true →
    (l.foldl (mergeSignal R) e).preise.preis = e.preise.preis := by
  induction l with
  | nil => intro e _; rfl
  | cons d rest ih =>
    intro e h
    have hs := mergeSignal_preis_of_truthy R e d h
    have ht : truthyQ (mergeSignal R e d).preise.preis = true := by rw [hs]; exact h
    rw [List.foldl_cons, ih _ ht, hs]

theorem foldl_mergeSignal_ort (R : ReSearches) (l : List Scraped) : ∀ e : EventData,
    truthyStr e.ort.adresse = true →
    (l.foldl (mergeSignal R) e).ort = e.ort := by
  induction l with
  | nil => intro e _; rfl
  | cons d rest ih =>
    intro e h
    have hs := mergeSignal_ort_of_truthy R e d h
    have ht : truthyStr (mergeSignal R e d).ort.adresse = true := by rw [hs]; exact h
    rw [List.foldl_cons, ih _ ht, hs]

theorem foldl_mergeSignal_email (R : ReSearches) (l : List Scraped) : ∀ e : EventData,
    truthyStr e.metadaten.kontakt.email = true →
    (l.foldl (mergeSignal R) e).metadaten.kontakt.email = e.metadaten.kontakt.email := by
  induction l with
  | nil => intro e _; rfl
  | cons d rest ih =>
    intro e h
    have hs := mergeSignal_email_of_truthy R e d h
    have ht : truthyStr (mergeSignal R e d).metadaten.kontakt.email = true := by
      rw [hs]; exact h
    rw [List.foldl_cons, ih _ ht, hs]

theorem foldl_mergeSignal_telefon (R : ReSearches) (l : List Scraped) : ∀ e : EventData,
    truthyStr e.metadaten.kontakt.telefon = true →
    (l.foldl (mergeSignal R) e).metadaten.kontakt.telefon = e.metadaten.kontakt.telefon := by
  induction l with
  | nil => intro e _; rfl
  | cons d rest ih =>
    intro e h
    have hs := mergeSignal_telefon_of_truthy R e d h
    have ht : truthyStr (mergeSignal R e d).metadaten.kontakt.telefon = true := by
      rw [hs]; exact h
    rw [List.foldl_cons, ih _ ht, hs]

theorem foldl_mergeSignal_website (R : ReSearches) (l : List Scraped) : ∀ e : EventData,
    truthyStr e.metadaten.kontakt.website = true →
    (l.foldl (mergeSignal R) e).metadaten.kontakt.website = e.metadaten.kontakt.website := by
  induction l with
  | nil => intro e _; rfl
  | cons d rest ih =>
    intro e h
    have hs := mergeSignal_website_of_truthy R e d h
    have ht : truthyStr (mergeSignal R e d).metadaten.kontakt.website = true := by
      rw [hs]; exact h
    rw [List.foldl_cons, ih _ ht, hs]

theorem mergeScrapedData_conf_eq (R : ReSearches) (e : EventData) (scraped : List Scraped)
    (h : scraped ≠ []) :
    (mergeScrapedData R e scraped).metadaten.vertrauenswuerdigkeit
      = min 1 (e.metadaten.vertrauenswuerdigkeit
          + min (1/5 : ℚ) ((scraped.length : ℚ) * (1/20))) := by
  unfold mergeScrapedData
  dsimp only
  rw [if_neg (by simpa using h)]
  dsimp only
  rw [foldl_mergeSignal_conf]
theorem mergeScrapedData_preis_of_truthy (R : ReSearches) (e : EventData)
    (scraped : List Scraped) (h : truthyQ e.preise.preis = true) :
    (mergeScrapedData R e scraped).preise.preis = e.preise.preis := by
  unfold mergeScrapedData
  dsimp only
  split
  · exact foldl_mergeSignal_preis R scraped e h
  · exact foldl_mergeSignal_preis R scraped e h

theorem mergeScrapedData_ort_of_truthy (R : ReSearches) (e : EventData)
    (scraped : List Scraped) (h : truthyStr e.ort.adresse = true) :
    (mergeScrapedData R e scraped).ort = e.ort := by
  unfold mergeScrapedData
  dsimp only
  split
  · exact foldl_mergeSignal_ort R scraped e h
  · exact foldl_mergeSignal_ort R scraped e h

theorem mergeScrapedData_email_of_truthy (R : ReSearches) (e : EventData)
    (scraped : List Scraped) (h : truthyStr e.metadaten.kontakt.email = true) :
    (mergeScrapedData R e scraped).metadaten.kontakt.email
      = e.metadaten.kontakt.email := by
  unfold mergeScrapedData
  dsimp only
  split
  · exact foldl_mergeSignal_email R scraped e h
  · exact foldl_mergeSignal_email R scraped e h

theorem mergeScrapedData_telefon_of_truthy (R : ReSearches) (e : EventData)
    (scraped : List Scraped) (h : truthyStr e.metadaten.kontakt.telefon = true) :
    (mergeScrapedData R e scraped).metadaten.kontakt.telefon
      = e.metadaten.kontakt.telefon := by
  unfold mergeScrapedData
  dsimp only
  split
  · exact foldl_mergeSignal_telefon R scraped e h
  · exact foldl_mergeSignal_telefon R scraped e h

theorem mergeScrapedData_website_of_truthy (R : ReSearches) (e : EventData)
    (scraped : List Scraped) (h : truthyStr e.metadaten.kontakt.website = true) :
    (mergeScrapedData R e scraped).metadaten.kontakt.website
      = e.metadaten.kontakt.website := by
  unfold mergeScrapedData
  dsimp only
  split
  · exact foldl_mergeSignal_website R scraped e h
  · exact foldl_mergeSignal_website R scraped e h
theorem qualityFactors_length_le_seven (e : EventData) :
    (qualityFactors e).length ≤ 7 := by
  unfold qualityFactors
  split_ifs <;> simp

theorem qualityScore_nonneg (e : EventData) : 0 ≤ qualityScore e := by
  unfold qualityScore
  positivity

theorem qualityScore_le_one (e : EventData) : qualityScore e ≤ 1 := by
  unfold qualityScore
  rw [div_le_one (by norm_num)]
  exact_mod_cast qualityFactors_length_le_seven e

theorem mergeScrapedData_confIn01 (R : ReSearches) (e : EventData)
    (scraped : List Scraped) (h : ConfIn01 e) :
    ConfIn01 (mergeScrapedData R e scraped) := by
  obtain ⟨h0, h1⟩ := h
  rcases eq_or_ne scraped [] with hs | hs
  · subst hs
    exact ⟨h0, h1⟩
  · constructor
    · rw [mergeScrapedData_conf_eq R e scraped hs]
      have hb : (0:ℚ) ≤ min (1/5 : ℚ) ((scraped.length : ℚ) * (1/20)) :=
        le_min (by norm_num) (by positivity)
      exact le_min (by norm_num) (by linarith)
    · rw [mergeScrapedData_conf_eq R e scraped hs]
      exact min_le_left _ _

theorem assessDataQuality_confIn01 (e : EventData) (h : ConfIn01 e) :
    ConfIn01 (assessDataQuality e) := by
  obtain ⟨h0, h1⟩ := h
  unfold assessDataQuality ConfIn01
  dsimp only
  split
  · constructor
    · refine le_min (by norm_num) ?_
      have hq := qualityScore_nonneg e
      linarith
    · exact min_le_left _ _
  · exact ⟨h0, h1⟩

theorem qualityFactors_length_eq (e : EventData) :
    (qualityFactors e).length =
      ((if !(e.veranstaltungsname == "") then 1 else 0) +
       (if truthyStr e.ort.veranstaltungsort || truthyStr e.ort.adresse then 1 else 0) +
       (if e.termine.beginn.isSome then 1 else 0) +
       (if e.preise.kostenlos || truthyQ e.preise.preis then 1 else 0) +
       (if truthyStr e.metadaten.kontakt.telefon || truthyStr e.metadaten.kontakt.email ||
           truthyStr e.metadaten.kontakt.website then 1 else 0) +
       (if !e.erkannte_qr_codes.isEmpty || !e.erkannte_links.isEmpty then 1 else 0) +
       (if !(e.kategorie == .andere) then 1 else 0)) := by
  unfold qualityFactors
  split_ifs <;> rfl

/-! ### Closed fixtures for instantiated statements -/

/-- A regex collaborator with no matches, for closed instances. -/
def noSearches : ReSearches :=
  { priceSearch := fun _ => none, addressSearch := fun _ => none,
    emailSearch := fun _ => none, phoneSearch := fun _ => none }

/-- A freshly extracted minimal record (all defaults, confidence `0.0`). -/
def sampleRecord : EventData := { veranstaltungsname := "Sommerfest" }

/-- A scraped page signal with ticket-keyword text. -/
def samplePage : Scraped :=
  { url := "https://www.test.de", text_content := "tickets hier" }

/-! ### Claim theorems -/

/-- C1: for every record whose confidence score lies in `[0, 1]` and any
sequence of enrichment merge calls (with arbitrary signal lists and regex
collaborator behaviour) and quality passes, the confidence score
`metadaten.vertrauenswuerdigkeit` stays in the closed interval `[0, 1]`. -/
theorem confidence_always_in_unit_interval (e : EventData) (ops : List PipeOp)
    (he : ConfIn01 e) : ConfIn01 (applyOps e ops) := by
  induction ops generalizing e with
  | nil => exact he
  | cons op rest ih =>
    cases op with
    | merge R scraped => exact ih _ (mergeScrapedData_confIn01 R e scraped he)
    | quality => exact ih _ (assessDataQuality_confIn01 e he)

/-- Closed instance of `confidence_always_in_unit_interval`: one
enrichment merge followed by one quality pass on a fresh record. -/
theorem confidence_always_in_unit_interval_witness :
    ConfIn01 (applyOps sampleRecord
      [PipeOp.merge noSearches [samplePage], PipeOp.quality]) :=
  confidence_always_in_unit_interval sampleRecord _ ⟨le_refl 0, zero_le_one⟩

/-- C10: the post-enrichment quality pass never decreases the confidence
score: after `_assess_data_quality` the score is `≥` its value before. -/
theorem quality_pass_never_decreases_confidence (e : EventData) :
    e.metadaten.vertrauenswuerdigkeit
      ≤ (assessDataQuality e).metadaten.vertrauenswuerdigkeit := by
  unfold assessDataQuality
  dsimp only
  split
  · rename_i hlt
    exact le_min (le_of_lt (lt_of_lt_of_le hlt (qualityScore_le_one e)))
      (by linarith)
  · exact le_refl _

/-- C4: the quality pass computes the quality score as (number of the
seven completeness factors that hold) / 7, updates the confidence to the
average of score and confidence exactly when the score strictly exceeds
the confidence (leaving it unchanged otherwise), and a record missing
location, datetime, pricing, contact and QR/URL evidence with the default
category has quality score `1/7`. -/
theorem quality_pass_characterisation (e : EventData) :
    (qualityScore e =
      (((if !(e.veranstaltungsname == "") then 1 else 0) +
        (if truthyStr e.ort.veranstaltungsort || truthyStr e.ort.adresse then 1 else 0) +
        (if e.termine.beginn.isSome then 1 else 0) +
        (if e.preise.kostenlos || truthyQ e.preise.preis then 1 else 0) +
        (if truthyStr e.metadaten.kontakt.telefon || truthyStr e.metadaten.kontakt.email ||
            truthyStr e.metadaten.kontakt.website then 1 else 0) +
        (if !e.erkannte_qr_codes.isEmpty || !e.erkannte_links.isEmpty then 1 else 0) +
        (if !(e.kategorie == .andere) then 1 else 0) : ℕ) : ℚ) / 7)
    ∧ (e.metadaten.vertrauenswuerdigkeit < qualityScore e →
        (assessDataQuality e).metadaten.vertrauenswuerdigkeit
          = (e.metadaten.vertrauenswuerdigkeit + qualityScore e) / 2)
    ∧ (¬ e.metadaten.vertrauenswuerdigkeit < qualityScore e →
        (assessDataQuality e).metadaten.vertrauenswuerdigkeit
          = e.metadaten.vertrauenswuerdigkeit)
    ∧ ((truthyStr e.ort.veranstaltungsort || truthyStr e.ort.adresse) = false ∧
       e.termine.beginn.isSome = false ∧
       (e.preise.kostenlos || truthyQ e.preise.preis) = false ∧
       (truthyStr e.metadaten.kontakt.telefon || truthyStr e.metadaten.kontakt.email ||
          truthyStr e.metadaten.kontakt.website) = false ∧
       (!e.erkannte_qr_codes.isEmpty || !e.erkannte_links.isEmpty) = false ∧
       e.kategorie = .andere ∧ (e.veranstaltungsname == "") = false →
        qualityScore e = 1/7) := by
  refine ⟨?_, ?_, ?_, ?_⟩
  · unfold qualityScore
    rw [qualityFactors_length_eq]
  · intro hlt
    unfold assessDataQuality
    dsimp only
    rw [if_pos hlt]
    dsimp only
    refine min_eq_right ?_
    have := qualityScore_le_one e
    linarith
  · intro hge
    unfold assessDataQuality
    dsimp only
    rw [if_neg hge]
  · rintro ⟨hl, hd, hp, hc, hs, hk, hn⟩
    unfold qualityScore qualityFactors
    simp [hl, hd, hp, hc, hs, hk, hn]

/-- Closed instance of `quality_pass_characterisation` at a fresh record:
all inner implications discharged at the scenario record, whose quality
score is `1/7`. -/
theorem quality_pass_characterisation_witness :
    qualityScore sampleRecord = 1/7 :=
  (quality_pass_characterisation sampleRecord).2.2.2
    ⟨rfl, rfl, rfl, rfl, rfl, rfl, rfl⟩

/-- C3: for every record with confidence in `[0, 1]` and nonempty signal
list, one enrichment merge call sets the confidence to
`min(1.0, c + min(0.2, 0.05 * n))` — the bonus enters the formula exactly
once per call, independent of the per-signal rules — and the bonus
component never exceeds `0.2` (in particular for `n = 10`). -/
theorem merge_confidence_bonus_once (R : ReSearches) (e : EventData)
    (scraped : List Scraped) (hc : ConfIn01 e) (hne : scraped ≠ []) :
    ((mergeScrapedData R e scraped).metadaten.vertrauenswuerdigkeit
        = min 1 (e.metadaten.vertrauenswuerdigkeit
            + min (1/5 : ℚ) ((scraped.length : ℚ) * (1/20))))
    ∧ min (1/5 : ℚ) ((scraped.length : ℚ) * (1/20)) ≤ 1/5 :=
  ⟨mergeScrapedData_conf_eq R e scraped hne, min_le_left _ _⟩

/-- Closed instance of `merge_confidence_bonus_once` at one signal. -/
theorem merge_confidence_bonus_once_witness :
    ((mergeScrapedData noSearches sampleRecord [samplePage]).metadaten.vertrauenswuerdigkeit
        = min 1 (sampleRecord.metadaten.vertrauenswuerdigkeit
            + min (1/5 : ℚ) ((([samplePage] : List Scraped).length : ℚ) * (1/20))))
    ∧ min (1/5 : ℚ) ((([samplePage] : List Scraped).length : ℚ) * (1/20)) ≤ 1/5 :=
  merge_confidence_bonus_once noSearches sampleRecord [samplePage]
    ⟨le_refl 0, zero_le_one⟩ (by simp)

/-- C2 (amended): a merge-rule target field holding a *truthy* value
(non-`None`, nonzero price, nonempty string) is never overwritten by the
merge engine, for any signals and any regex collaborator — so re-running
the merge with a record whose rule fields are all truthy changes none of
them.  (The unamended claim, with "set" meaning non-`None`, fails: the
source guards test Python truthiness, so a price set to `0.0` is treated
as empty and can be overwritten — see the counterexample.) -/
theorem merge_never_overwrites_truthy_fields (R : ReSearches) (e : EventData)
    (scraped : List Scraped) :
    (truthyQ e.preise.preis = true →
      (mergeScrapedData R e scraped).preise.preis = e.preise.preis)
    ∧ (truthyStr e.ort.adresse = true →
      (mergeScrapedData R e scraped).ort.adresse = e.ort.adresse
      ∧ (mergeScrapedData R e scraped).ort.postleitzahl = e.ort.postleitzahl
      ∧ (mergeScrapedData R e scraped).ort.stadt = e.ort.stadt)
    ∧ (truthyStr e.metadaten.kontakt.email = true →
      (mergeScrapedData R e scraped).metadaten.kontakt.email = e.metadaten.kontakt.email)
    ∧ (truthyStr e.metadaten.kontakt.telefon = true →
      (mergeScrapedData R e scraped).metadaten.kontakt.telefon = e.metadaten.kontakt.telefon)
    ∧ (truthyStr e.metadaten.kontakt.website = true →
      (mergeScrapedData R e scraped).metadaten.kontakt.website = e.metadaten.kontakt.website) := by
  refine ⟨fun h => mergeScrapedData_preis_of_truthy R e scraped h,
    fun h => ?_,
    fun h => mergeScrapedData_email_of_truthy R e scraped h,
    fun h => mergeScrapedData_telefon_of_truthy R e scraped h,
    fun h => mergeScrapedData_website_of_truthy R e scraped h⟩
  have ho := mergeScrapedData_ort_of_truthy R e scraped h
  exact ⟨by rw [ho], by rw [ho], by rw [ho]⟩

/-- A record with every merge-rule target field set to a truthy value. -/
def filledRecord : EventData :=
  { veranstaltungsname := "Jazzabend",
    ort := { adresse := some "Musterweg 3", postleitzahl := some "80331",
             stadt := some "Muenchen" },
    preise := { kostenlos := false, preis := some 12 },
    metadaten := { kontakt :=
      { telefon := some "+49 89 1234567", email := some "info@test.de",
        website := some "https://www.test.de" } } }

/-- Closed instance of `merge_never_overwrites_truthy_fields`: the truthy
price of a filled record survives a merge. -/
theorem merge_never_overwrites_truthy_fields_witness :
    (mergeScrapedData noSearches filledRecord [samplePage]).preise.preis
      = filledRecord.preise.preis :=
  (merge_never_overwrites_truthy_fields noSearches filledRecord [samplePage]).1 (by decide)

/-- The price regex result on the page below, as the Python
`re.search(r'(\d+(?:,\d+)?)\s*€|euro?\s*(\d+(?:,\d+)?)', text)` computes
it: on the lower-cased text `"eintritt 35 €"` the first alternative
matches with group 1 `"35"`, converted by `float` to `35.0`. -/
def overwriteSearches : ReSearches :=
  { priceSearch := fun s => if s = "eintritt 35 €" then some 35 else none,
    addressSearch := fun _ => none,
    emailSearch := fun _ => none,
    phoneSearch := fun _ => none }

/-- A record whose price field is *set* — to `0.0` — with the free flag
clear (constructible: the pydantic validator only rejects negative
prices). -/
def zeroPriceRecord : EventData :=
  { veranstaltungsname := "Rock Concert",
    preise := { kostenlos := false, preis := some 0 } }

def priceSignal : Scraped :=
  { url := "https://test.de", text_content := "Eintritt 35 €" }

/-- C2 counterexample: the claim "each merge rule never overwrites an
already-set field" fails at a record whose price is set to `0.0`: the
guard `not event_data.preise.preis` (`web_scraper.py` line 268) is Python
truthiness, `0.0` is falsy, and the merge overwrites the set price with
the scraped `35.0`. -/
theorem merge_overwrites_zero_price :
    zeroPriceRecord.preise.preis = some 0
    ∧ (mergeScrapedData overwriteSearches zeroPriceRecord [priceSignal]).preise.preis
        = some 35 := by
  constructor
  · rfl
  · decide

/-- C8 (amended): postal-code validation accepts a supplied string exactly
when it is five digit characters *or the empty string* (the guard `if v`
short-circuits on falsy values, so `""` never reaches the digit check);
nonempty values of 4 digits, 6 digits, or with a non-digit character are
rejected with a `ValueError`.  (The unamended claim — acceptance iff
exactly 5 digits — fails at `""`, see the counterexample.) -/
theorem validate_plz_characterisation (s : String) :
    (validate_plz (some s)).isOk = true
      ↔ (s = "" ∨ (s.length = 5 ∧ s.toList.all Char.isDigit = true)) := by
  unfold validate_plz pyIsdigit
  dsimp only
  by_cases hs : s = ""
  · subst hs
    simp [Except.isOk, Except.toBool]
  · have hsb : (s == "") = false := by simpa using hs
    rw [hsb]
    by_cases h5 : s.length = 5 <;> by_cases hd : s.toList.all Char.isDigit = true
    · have h5b : (s.length == 5) = true := by simpa using h5
      rw [h5b, hd]
      simp [Except.isOk, Except.toBool, hs, h5, hd]
    · have hdb : s.toList.all Char.isDigit = false := by
        rcases hx : s.toList.all Char.isDigit with _ | _
        · rfl
        · exact absurd hx hd
      rw [hdb]
      simp [Except.isOk, Except.toBool, hs, h5, hdb]
    · have h5b : (s.length == 5) = false := by simpa using h5
      rw [h5b]
      simp [Except.isOk, Except.toBool, hs, h5, hd]
    · have hdb : s.toList.all Char.isDigit = false := by
        rcases hx : s.toList.all Char.isDigit with _ | _
        · rfl
        · exact absurd hx hd
      rw [hdb]
      simp [Except.isOk, Except.toBool, hs, h5, hdb]

/-- C8 counterexample: the empty string is accepted by `validate_plz`
although it does not consist of exactly five digit characters. -/
theorem validate_plz_accepts_empty_string :
    (validate_plz (some "")).isOk = true ∧ ("".length = 5) = False := by
  constructor
  · rfl
  · simp

/-! ### Heap lemmas -/

theorem read_lt_length {h : RecHeap} {r : Nat} {e : EventData}
    (hr : h.read r = some e) : r < h.length := by
  unfold RecHeap.read at hr
  exact List.get?_eq_some.mp hr |>.1

theorem read_alloc_old {h : RecHeap} {r : Nat} {e : EventData} (v : EventData)
    (hr : h.read r = some e) : (h.alloc v).read r = some e := by
  unfold RecHeap.read RecHeap.alloc at *
  rw [List.get?_append (read_lt_length hr)]
  exact hr

theorem read_alloc_new (h : RecHeap) (v : EventData) :
    (h.alloc v).read h.length = some v := by
  unfold RecHeap.read RecHeap.alloc
  exact List.get?_concat_length h v

/-- C9: the enrichment merge never mutates the record passed in: it deep
copies (`event_data.copy(deep=True)`, one fresh allocation) and performs
every rule application and the confidence update on the copy; the
returned reference is a new object distinct from the caller's, the
caller's cell keeps its value, and the fresh cell holds the merged
record. -/
theorem merge_leaves_input_record_unchanged (R : ReSearches) (h : RecHeap)
    (r : Nat) (scraped : List Scraped) (e : EventData) (hr : h.read r = some e) :
    ((mergeScrapedDataHeap R h r scraped).2 ≠ r)
    ∧ ((mergeScrapedDataHeap R h r scraped).1.read r = some e)
    ∧ ((mergeScrapedDataHeap R h r scraped).1.read (mergeScrapedDataHeap R h r scraped).2
        = some (mergeScrapedData R e scraped)) := by
  unfold mergeScrapedDataHeap
  rw [hr]
  refine ⟨?_, ?_, ?_⟩
  · exact fun hlen => absurd (hlen ▸ read_lt_length hr) (lt_irrefl _)
  · exact read_alloc_old _ hr
  · exact read_alloc_new h _

/-- Closed instance of `merge_leaves_input_record_unchanged` on a
one-cell heap. -/
theorem merge_leaves_input_record_unchanged_witness :
    ((mergeScrapedDataHeap noSearches [sampleRecord] 0 []).2 ≠ 0)
    ∧ ((mergeScrapedDataHeap noSearches [sampleRecord] 0 []).1.read 0 = some sampleRecord)
    ∧ ((mergeScrapedDataHeap noSearches [sampleRecord] 0 []).1.read
        (mergeScrapedDataHeap noSearches [sampleRecord] 0 []).2
        = some (mergeScrapedData noSearches sampleRecord [])) :=
  merge_leaves_input_record_unchanged noSearches [sampleRecord] 0 [] sampleRecord rfl

/-- C6: if the enrichment phase fails as a whole — an exception before the
merge or an exception part-way through the merge loop — the enhancement
step returns the record in its pre-enrichment state, every field
unchanged (the merge only ever mutated the deep copy). -/
theorem enhance_phase_failure_is_atomic (R : ReSearches) (scraped : List Scraped)
    (outcome : PhaseOutcome) (h : RecHeap) (r : Nat) (e : EventData)
    (hr : h.read r = some e) (hfail : outcome ≠ PhaseOutcome.ok) :
    ((enhanceWithWebScrapingHeap R scraped outcome h r).2 = r)
    ∧ ((enhanceWithWebScrapingHeap R scraped outcome h r).1.read
        (enhanceWithWebScrapingHeap R scraped outcome h r).2 = some e) := by
  unfold enhanceWithWebScrapingHeap
  rw [hr]
  cases outcome with
  | ok => exact absurd rfl hfail
  | scrapeFail => exact ⟨rfl, hr⟩
  | mergeFail k => exact ⟨rfl, read_alloc_old _ hr⟩

/-- Closed instance of `enhance_phase_failure_is_atomic`: a scrape-stage
failure returns the untouched original record. -/
theorem enhance_phase_failure_is_atomic_witness :
    ((enhanceWithWebScrapingHeap noSearches [samplePage] PhaseOutcome.scrapeFail
        [sampleRecord] 0).2 = 0)
    ∧ ((enhanceWithWebScrapingHeap noSearches [samplePage] PhaseOutcome.scrapeFail
        [sampleRecord] 0).1.read
        (enhanceWithWebScrapingHeap noSearches [samplePage] PhaseOutcome.scrapeFail
          [sampleRecord] 0).2 = some sampleRecord) :=
  enhance_phase_failure_is_atomic noSearches [samplePage] PhaseOutcome.scrapeFail
    [sampleRecord] 0 sampleRecord rfl (by decide)

/-! ### Lookup lemmas for the decoded dict -/
theorem lookupKey_append_single_ne (l : List (String × Json)) (k k2 : String)
    (v : Json) (hne : (k2 == k) = false) :
    lookupKey (l ++ [(k2, v)]) k = lookupKey l k := by
  induction l with
  | nil => simp [lookupKey, hne]
  | cons p rest ih =>
    cases p with
    | mk k1 v1 =>
      rw [List.cons_append]
      simp only [lookupKey]
      split
      · rfl
      · exact ih

theorem lookupKey_map_set_ne (l : List (String × Json)) (k k2 : String)
    (v : Json) (hne : (k2 == k) = false) :
    lookupKey (l.map (fun p => if p.1 == k2 then (k2, v) else p)) k
      = lookupKey l k := by
  induction l with
  | nil => rfl
  | cons p rest ih =>
    cases p with
    | mk k1 v1 =>
      rw [List.map_cons]
      by_cases h12 : (k1 == k2) = true
      · have hk12 : k1 = k2 := by simpa using h12
        have hk1 : (k1 == k) = false := by
          subst hk12
          exact hne
        rw [if_pos h12]
        simp only [lookupKey]
        rw [if_neg (by simp [hne]), if_neg (by simp [hk1])]
        exact ih
      · have h12f : (k1 == k2) = false := by
          rcases hx : (k1 == k2) with _ | _
          · rfl
          · exact absurd hx h12
        rw [if_neg (by simp [h12f])]
        simp only [lookupKey]
        by_cases hk : (k1 == k) = true
        · rw [if_pos hk, if_pos hk]
        · have hkf : (k1 == k) = false := by
            rcases hx : (k1 == k) with _ | _
            · rfl
            · exact absurd hx hk
          rw [if_neg (by simp [hkf]), if_neg (by simp [hkf])]
          exact ih

theorem lookupKey_setKey_ne (l : List (String × Json)) (k k2 : String)
    (v : Json) (hne : (k2 == k) = false) :
    lookupKey (setKey l k2 v) k = lookupKey l k := by
  unfold setKey
  split
  · exact lookupKey_map_set_ne l k k2 v hne
  · exact lookupKey_append_single_ne l k k2 v hne

theorem lookupKey_attachDetected (fields : List (String × Json))
    (qrCodes urls : List String) :
    lookupKey (attachDetected fields qrCodes urls) "veranstaltungsname"
      = lookupKey fields "veranstaltungsname" := by
  unfold attachDetected
  dsimp only
  split
  · split
    · rfl
    · exact lookupKey_setKey_ne _ _ _ _ (by decide)
  · rw [lookupKey_setKey_ne _ _ _ _ (by decide)]
    split
    · rfl
    · exact lookupKey_setKey_ne _ _ _ _ (by decide)

/-- C5: the reply parser slices from the first `{` to the last `}` and
decodes that substring; whenever no braces are found, or JSON decoding
fails, or the decoded object lacks a non-empty (truthy)
`veranstaltungsname` field, the parser returns `None` — and, being a
total function into `Option`, raises nothing to the caller.  Quantified
over the behaviour of the `json.loads` and pydantic-validation
collaborators. -/
theorem parse_response_failure_returns_none (loads : String → Option Json)
    (fromDict : List (String × Json) → Option EventData)
    (response : String) (qrCodes urls : List String) :
    ((charFindIdx response.toList '{' = none ∨ charRfindIdx response.toList '}' = none) →
      parseResponse loads fromDict response qrCodes urls = none)
    ∧ (∀ jStart jEnd, charFindIdx response.toList '{' = some jStart →
        charRfindIdx response.toList '}' = some jEnd →
        loads (jsonSlice response jStart jEnd) = none →
        parseResponse loads fromDict response qrCodes urls = none)
    ∧ (∀ jStart jEnd fields, charFindIdx response.toList '{' = some jStart →
        charRfindIdx response.toList '}' = some jEnd →
        loads (jsonSlice response jStart jEnd) = some (Json.obj fields) →
        pyTruthyJson (lookupKey fields "veranstaltungsname") = false →
        parseResponse loads fromDict response qrCodes urls = none) := by
  refine ⟨?_, ?_, ?_⟩
  · rintro (h | h)
    · simp only [parseResponse, h]
    · rcases hf : charFindIdx response.toList '{' with _ | jS <;>
        simp only [parseResponse, hf, h]
  · intro jStart jEnd h1 h2 h3
    simp only [parseResponse, h1, h2, h3]
  · intro jStart jEnd fields h1 h2 h3 hname
    simp only [parseResponse, h1, h2, h3]
    rw [lookupKey_attachDetected, hname]
    rfl

/-- Closed instance of `parse_response_failure_returns_none` on a reply
with no braces. -/
theorem parse_response_failure_returns_none_witness :
    parseResponse (fun _ => none) (fun _ => none) "hallo" [] [] = none :=
  (parse_response_failure_returns_none (fun _ => none) (fun _ => none) "hallo" [] []).1
    (Or.inl (by decide))

/-! ### URL validation lemmas -/

theorem acceptUrl_isSome_iff (isUrl : String → Bool)
    (hval : ∀ s, startsWithHttpScheme s = true → isUrl ("https://" ++ s) = false)
    (url : String) :
    (acceptUrl isUrl url).isSome
      = (isUrl url || (hasGermanDomain url && isUrl ("https://" ++ url))) := by
  unfold acceptUrl
  by_cases hu : isUrl url = true
  · simp [hu]
  · have huf : isUrl url = false := by
      rcases hx : isUrl url with _ | _
      · rfl
      · exact absurd hx hu
    by_cases hg : hasGermanDomain url = true
    · by_cases hs : startsWithHttpScheme url = true
      · simp [huf, hg, hs, hval url hs]
      · have hsf : startsWithHttpScheme url = false := by
          rcases hx : startsWithHttpScheme url with _ | _
          · rfl
          · exact absurd hx hs
        by_cases hf : isUrl ("https://" ++ url) = true
        · simp [huf, hg, hsf, hf]
        · have hff : isUrl ("https://" ++ url) = false := by
            rcases hx : isUrl ("https://" ++ url) with _ | _
            · rfl
            · exact absurd hx hf
          simp [huf, hg, hsf, hff]
    · have hgf : hasGermanDomain url = false := by
        rcases hx : hasGermanDomain url with _ | _
        · rfl
        · exact absurd hx hg
      simp [huf, hgf]

theorem validate_german_urls_german_first (isUrl : String → Bool) (urls : List String) :
    (validate_german_urls isUrl urls).Pairwise
      (fun a b => hasGermanDomain b = true → hasGermanDomain a = true) := by
  unfold validate_german_urls
  dsimp only
  rw [List.pairwise_append]
  refine ⟨?_, ?_, ?_⟩
  · refine List.pairwise_of_forall_mem_list ?_
    intro a ha b _ _
    exact (List.mem_filter.mp ha).2
  · refine List.pairwise_of_forall_mem_list ?_
    intro a _ b hb hgb
    have := (List.mem_filter.mp hb).2
    simp [hgb] at this
  · intro a ha b _ _
    exact (List.mem_filter.mp ha).2

theorem validate_german_urls_stable (isUrl : String → Bool) (urls : List String) :
    (validate_german_urls isUrl urls).filter hasGermanDomain
        = (urls.filterMap (acceptUrl isUrl)).filter hasGermanDomain
    ∧ (validate_german_urls isUrl urls).filter (fun u => !hasGermanDomain u)
        = (urls.filterMap (acceptUrl isUrl)).filter (fun u => !hasGermanDomain u) := by
  unfold validate_german_urls
  dsimp only
  constructor
  · rw [List.filter_append, List.filter_filter, List.filter_filter]
    simp [Bool.and_self]
  · rw [List.filter_append, List.filter_filter, List.filter_filter]
    simp

/-- C7: under the assumption on the `validators.url` collaborator that a
string already carrying an `http(s)://` scheme never becomes a valid URL
by prefixing a second `https://` (true of real URL syntax), a candidate
contributes an entry to `validate_german_urls` exactly when it is a valid
absolute URL or contains a German-region TLD fragment and validates after
prefixing `https://`; the output places German-domain entries before all
others (every entry preceding a German-domain entry is itself
German-domain), and within each class the order is exactly the acceptance
(input) order. -/
theorem validate_german_urls_characterisation (isUrl : String → Bool)
    (hval : ∀ s, startsWithHttpScheme s = true → isUrl ("https://" ++ s) = false)
    (urls : List String) :
    (∀ url, (acceptUrl isUrl url).isSome
        = (isUrl url || (hasGermanDomain url && isUrl ("https://" ++ url))))
    ∧ (validate_german_urls isUrl urls).Pairwise
        (fun a b => hasGermanDomain b = true → hasGermanDomain a = true)
    ∧ (validate_german_urls isUrl urls).filter hasGermanDomain
        = (urls.filterMap (acceptUrl isUrl)).filter hasGermanDomain
    ∧ (validate_german_urls isUrl urls).filter (fun u => !hasGermanDomain u)
        = (urls.filterMap (acceptUrl isUrl)).filter (fun u => !hasGermanDomain u) :=
  ⟨fun url => acceptUrl_isSome_iff isUrl hval url,
   validate_german_urls_german_first isUrl urls,
   (validate_german_urls_stable isUrl urls).1,
   (validate_german_urls_stable isUrl urls).2⟩

/-- Closed instance of `validate_german_urls_characterisation` with a
rejecting validator and one German-domain candidate. -/
theorem validate_german_urls_characterisation_witness :
    (acceptUrl (fun _ => false) "www.test.de").isSome
      = ((fun _ : String => false) "www.test.de"
          || (hasGermanDomain "www.test.de"
              && (fun _ : String => false) ("https://" ++ "www.test.de"))) :=
  (validate_german_urls_characterisation (fun _ => false) (fun _ _ => rfl)
    ["www.test.de"]).1 "www.test.de"
